import Mathlib

/-!
Verification of the gosker SOCKS5 rule manager (app.go) against its
specification.

The embedding below translates app.go into pure Lean functions:

* `SocksRule`, `TrafficCounter`, `AppState` mirror the Go structs; the
  Go `sync.Mutex` fields and the `*App` back-pointer are modelled away
  (state is threaded explicitly), and `time.Time` is modelled as a `Nat`
  number of seconds.
* Go maps keyed by rule id become association lists (`counters`) or key
  sets (`servers`, `listeners`); Go map assignment replaces an existing
  entry, `delete` removes it.
* Byte counts are `Nat`: the Go `int64` fields receive only nonnegative
  increments and no claim concerns overflow behaviour.
* `saveRules` writes a JSON snapshot to disk and mutates no in-memory
  state; the snapshot contents are modelled by `saveRulesRecords` and the
  load path by `loadRulesFrom` (JSON marshalling is the identity on the
  record schema). Where a Go function merely calls `a.saveRules()` the
  embedding drops the call (no in-memory effect); where a claim concerns
  whether the asynchronous `go t.app.saveRules()` is triggered, the
  embedding returns that trigger as a `Bool`.
* `net.Listen` success or failure is an environment input `bindOk`;
  `time.Now()` is an explicit `now` argument.
-/

namespace Gosker

/-- Mirrors the Go struct `SocksRule` (app.go lines 18-29). -/
structure SocksRule where
  ID : String
  Name : String
  Port : Nat
  Username : String
  Password : String
  NoAuth : Bool
  Running : Bool
  EnableUDP : Bool
  UploadBytes : Nat
  DownloadBytes : Nat
deriving Repr, DecidableEq

/-- Mirrors the Go struct `TrafficCounter` (app.go lines 42-49); the
mutex and the `*App` back-pointer are modelled away, `lastSync` is a
`Nat` timestamp in seconds. -/
structure TrafficCounter where
  uploadBytes : Nat
  downloadBytes : Nat
  ruleID : String
  lastSync : Nat
deriving Repr, DecidableEq

/-- Mirrors `NewTrafficCounter` (app.go lines 52-58): zero accumulators,
`lastSync` stamped with the current time. -/
def newTrafficCounter (ruleID : String) (now : Nat) : TrafficCounter :=
  { uploadBytes := 0, downloadBytes := 0, ruleID := ruleID, lastSync := now }

/-- Mirrors the Go struct `App` (app.go lines 32-39): the rule list plus
the id-keyed runtime maps.  `servers` and `listeners` are modelled as the
key sets of the Go maps (the mapped `*socks5.Server` handle and the
listener object carry no state the claims depend on beyond the counter,
which lives in `counters`). -/
structure AppState where
  rules : List SocksRule
  counters : List (String × TrafficCounter)
  servers : List String
  listeners : List String
deriving Repr, DecidableEq

/-- Association-list lookup, mirroring Go `m[k]` (comma-ok form). -/
def lookupA : List (String × TrafficCounter) → String → Option TrafficCounter
  | [], _ => none
  | p :: rest, k => if p.1 = k then some p.2 else lookupA rest k

/-- Association-list store, mirroring Go `m[k] = v` (replaces an existing
entry for the key, otherwise adds one). -/
def insertA : List (String × TrafficCounter) → String → TrafficCounter →
    List (String × TrafficCounter)
  | [], k, v => [(k, v)]
  | p :: rest, k, v => if p.1 = k then (k, v) :: rest else p :: insertA rest k v

/-- Association-list removal, mirroring Go `delete(m, k)`. -/
def eraseA : List (String × TrafficCounter) → String → List (String × TrafficCounter)
  | [], _ => []
  | p :: rest, k => if p.1 = k then rest else p :: eraseA rest k

/-- Key-set store, mirroring Go `m[k] = v` on the maps modelled as key
sets (`servers`, `listeners`). -/
def insertKey (m : List String) (k : String) : List String :=
  if k ∈ m then m else m ++ [k]

/-- Key-set removal, mirroring Go `delete(m, k)`. -/
def eraseKey : List String → String → List String
  | [], _ => []
  | x :: rest, k => if x = k then rest else x :: eraseKey rest k

/-- Number of entries for a key in a key-set map. -/
def countKey (m : List String) (k : String) : Nat :=
  (m.filter (fun x => x = k)).length

/-- The `for ... range a.rules` first-match search used throughout app.go
(e.g. lines 300-305, 474-479, 579-583): returns the first rule whose `ID`
matches, mirroring the loop with `break`. -/
def findRule : List SocksRule → String → Option SocksRule
  | [], _ => none
  | r :: rs, id => if r.ID = id then some r else findRule rs id

/-- Index form of the same first-match search, used where the Go code
keeps the loop index `i` (e.g. `syncToRule`, app.go line 93). -/
def findRuleIdx : List SocksRule → String → Option Nat
  | [], _ => none
  | r :: rs, id =>
      if r.ID = id then some 0 else (findRuleIdx rs id).map (fun i => i + 1)

/-- Mirrors a write through the found rule pointer `rule.Running = b`
(app.go lines 394 and 486): updates the first matching rule in place. -/
def markRunning : List SocksRule → String → Bool → List SocksRule
  | [], _, _ => []
  | r :: rs, id, b =>
      if r.ID = id then { r with Running := b } :: rs else r :: markRunning rs id b

/-- Mirrors the add-into-rule loops: `a.rules[i].UploadBytes += u;
a.rules[i].DownloadBytes += d` at the first matching index, with `break`
(app.go lines 93-108 and 493-499). -/
def addTraffic : List SocksRule → String → Nat → Nat → List SocksRule
  | [], _, _, _ => []
  | r :: rs, id, u, d =>
      if r.ID = id then
        { r with UploadBytes := r.UploadBytes + u,
                 DownloadBytes := r.DownloadBytes + d } :: rs
      else r :: addTraffic rs id u d

/-- Mirrors the `ResetTrafficStats` loop body (app.go lines 593-603):
zero the first matching rule's cumulative counters; `none` when no rule
matches (the error return). -/
def zeroTraffic : List SocksRule → String → Option (List SocksRule)
  | [], _ => none
  | r :: rs, id =>
      if r.ID = id then
        some ({ r with UploadBytes := 0, DownloadBytes := 0 } :: rs)
      else (zeroTraffic rs id).map (fun l => r :: l)

/-- Mirrors `a.rules[i] = rule` in `UpdateRule` (app.go line 245): the
index `i` is the first index whose `ID` equals `rule.ID`. -/
def replaceFirst : List SocksRule → SocksRule → List SocksRule
  | [], _ => []
  | r :: rs, rule =>
      if r.ID = rule.ID then rule :: rs else r :: replaceFirst rs rule

/-- Mirrors `TrafficCounter.syncToRule` (app.go lines 85-110): find the
rule by id (first match), add the accumulated deltas into its cumulative
fields, zero the accumulators, stamp `lastSync`.  The returned `Bool`
reports whether the `go t.app.saveRules()` persistence write was
triggered, which the Go code does when `i % 10 == 0` for the loop index
`i` of the matched rule (app.go line 103). -/
def syncToRule (t : TrafficCounter) (rules : List SocksRule) (now : Nat) :
    TrafficCounter × List SocksRule × Bool :=
  match findRuleIdx rules t.ruleID with
  | none => (t, rules, false)
  | some i =>
      ({ t with uploadBytes := 0, downloadBytes := 0, lastSync := now },
       addTraffic rules t.ruleID t.uploadBytes t.downloadBytes,
       i % 10 == 0)

/-- Mirrors `TrafficCounter.CountUpload` (app.go lines 61-70): add `n`
to the upload accumulator; if more than 3 seconds have elapsed since the
last sync, flush inline via `syncToRule`.  The `Bool` is `syncToRule`'s
persistence-trigger report (`false` when no flush happened). -/
def countUpload (t : TrafficCounter) (n : Nat) (rules : List SocksRule) (now : Nat) :
    TrafficCounter × List SocksRule × Bool :=
  let t2 := { t with uploadBytes := t.uploadBytes + n }
  if now - t2.lastSync > 3 then syncToRule t2 rules now else (t2, rules, false)

/-- Mirrors `TrafficCounter.CountDownload` (app.go lines 73-82). -/
def countDownload (t : TrafficCounter) (n : Nat) (rules : List SocksRule) (now : Nat) :
    TrafficCounter × List SocksRule × Bool :=
  let t2 := { t with downloadBytes := t.downloadBytes + n }
  if now - t2.lastSync > 3 then syncToRule t2 rules now else (t2, rules, false)

/-- One I/O completion on a wrapped connection: a `read` or `write` that
transferred `n` bytes at time `now`. -/
inductive ConnEvent where
  | read (n : Nat) (now : Nat)
  | write (n : Nat) (now : Nat)
deriving Repr, DecidableEq

/-- Mirrors `TrafficConnWrapper.Read` / `TrafficConnWrapper.Write`
(app.go lines 134-149): the byte transfer itself is delegated unchanged;
when `n > 0` the owning counter's `CountDownload` / `CountUpload` is
invoked.  Only the counter and the (possibly flushed-into) rule list
change. -/
def connStep (c : TrafficCounter) (rules : List SocksRule) :
    ConnEvent → TrafficCounter × List SocksRule
  | ConnEvent.read n now =>
      if n > 0 then
        let p := countDownload c n rules now
        (p.1, p.2.1)
      else (c, rules)
  | ConnEvent.write n now =>
      if n > 0 then
        let p := countUpload c n rules now
        (p.1, p.2.1)
      else (c, rules)

/-- Runs a sequence of I/O completions through one wrapped connection.
The connection wrapper and the counters map share the same
`TrafficCounter` object in Go; the model threads that single value. -/
def runConn (c : TrafficCounter) (rules : List SocksRule) :
    List ConnEvent → TrafficCounter × List SocksRule
  | [] => (c, rules)
  | ev :: rest =>
      let p := connStep c rules ev
      runConn p.1 p.2 rest

/-- Total bytes the Instrumented Connection reports as uploads (written
bytes) over a trace. -/
def countedUpload : List ConnEvent → Nat
  | [] => 0
  | ConnEvent.write n _ :: rest => n + countedUpload rest
  | ConnEvent.read _ _ :: rest => countedUpload rest

/-- Total bytes the Instrumented Connection reports as downloads (read
bytes) over a trace. -/
def countedDownload : List ConnEvent → Nat
  | [] => 0
  | ConnEvent.read n _ :: rest => n + countedDownload rest
  | ConnEvent.write _ _ :: rest => countedDownload rest

/-- Mirrors `AddRule` (app.go lines 208-222): assign a `rule_<n>` id if
blank, append the rule exactly as supplied, persist (no in-memory
effect), return the id. -/
def addRule (a : AppState) (rule : SocksRule) : AppState × String :=
  let rule2 :=
    if rule.ID = "" then { rule with ID := "rule_" ++ toString (a.rules.length + 1) }
    else rule
  ({ a with rules := a.rules ++ [rule2] }, rule2.ID)

/-- The id `AddRule` assigns to a given request. -/
def assignedId (a : AppState) (rule : SocksRule) : String :=
  if rule.ID = "" then "rule_" ++ toString (a.rules.length + 1) else rule.ID

/-- Mirrors `startServerLocked` (app.go lines 296-400).  The rule lookup
is the first-match loop; an already-running rule returns `true` with no
changes; otherwise a fresh counter is stored under `counters[id]`
*before* the TCP bind, whose outcome is the environment input `bindOk`.
On bind failure the function returns `false` immediately (app.go lines
353-356) — the freshly stored counter entry is not removed.  On success
the server handle and the wrapping `StatsListener` are registered, the
accept loop is launched (no modelled state), the rule's `Running` flag
is set through the found pointer and the state persisted. -/
def startServerLocked (a : AppState) (id : String) (bindOk : Bool) (now : Nat) :
    AppState × Bool :=
  match findRule a.rules id with
  | none => (a, false)
  | some r =>
      if r.Running then (a, true)
      else
        let counters2 := insertA a.counters id (newTrafficCounter id now)
        if bindOk then
          ({ rules := markRunning a.rules id true,
             counters := counters2,
             servers := insertKey a.servers id,
             listeners := insertKey a.listeners id }, true)
        else ({ a with counters := counters2 }, false)

/-- Mirrors the drain block of `stopServerLocked` (app.go lines
489-502): under the counter's lock, if any accumulated bytes exist they
are added into the matching rule's cumulative fields in place.  The Go
code reads `counter.uploadBytes` / `counter.downloadBytes` and writes
no counter field, so the counter value is unchanged by the drain. -/
def drainLocked (c : TrafficCounter) (rules : List SocksRule) (id : String) :
    List SocksRule :=
  if c.uploadBytes > 0 ∨ c.downloadBytes > 0 then
    addTraffic rules id c.uploadBytes c.downloadBytes
  else rules

/-- Mirrors `stopServerLocked` (app.go lines 471-522): find the rule
(first match); absent or not running returns `false` untouched; else
clear `Running` through the pointer, drain the live counter's unflushed
bytes directly into the rule (bypassing `syncToRule`), delete the
counter, server and listener entries, close the listener
(`StatsListener.Close` performs no state change — its sync goroutine
only inspects the counter, app.go lines 436-446), persist and return
`true`.  The middle component is the post-call value of the
`TrafficCounter` object that was registered for the id: the connections
and the listener wrapper still reference it after the maps drop it, and
the Go code never writes its fields here. -/
def stopServerLocked (a : AppState) (id : String) :
    AppState × Option TrafficCounter × Bool :=
  match findRule a.rules id with
  | none => (a, lookupA a.counters id, false)
  | some r =>
      if r.Running then
        let rules1 := markRunning a.rules id false
        match lookupA a.counters id with
        | some c =>
            ({ rules := drainLocked c rules1 id,
               counters := eraseA a.counters id,
               servers := eraseKey a.servers id,
               listeners := eraseKey a.listeners id }, some c, true)
        | none =>
            ({ rules := rules1,
               counters := eraseA a.counters id,
               servers := eraseKey a.servers id,
               listeners := eraseKey a.listeners id }, none, true)
      else (a, lookupA a.counters id, false)

/-- Mirrors `UpdateRule` (app.go lines 225-261): locate the first rule
with the supplied id; not found returns `false`.  Otherwise record the
existing cumulative byte counters and running state, stop the instance
if it was running, install the caller's rule with the *original* byte
counters at the same position, and if it was running and the caller's
rule is marked running call `startServerLocked` (its result is
discarded); persist and return `true`. -/
def updateRule (a : AppState) (rule : SocksRule) (bindOk : Bool) (now : Nat) :
    AppState × Bool :=
  match findRule a.rules rule.ID with
  | none => (a, false)
  | some r =>
      let origUp := r.UploadBytes
      let origDown := r.DownloadBytes
      let wasRunning := r.Running
      let a1 := if wasRunning then (stopServerLocked a rule.ID).1 else a
      let rule1 := { rule with UploadBytes := origUp, DownloadBytes := origDown }
      let a2 := { a1 with rules := replaceFirst a1.rules rule1 }
      let a3 :=
        if wasRunning && rule1.Running then (startServerLocked a2 rule.ID bindOk now).1
        else a2
      (a3, true)

/-- Mirrors `GetTrafficStats` (app.go lines 575-586): cumulative totals
of the first matching rule, or `(0, 0)` with an error for an unknown
id. -/
def getTrafficStats (a : AppState) (id : String) : Nat × Nat × Option String :=
  match findRule a.rules id with
  | some r => (r.UploadBytes, r.DownloadBytes, none)
  | none => (0, 0, some ("rule not found: " ++ id))

/-- Mirrors `ResetTrafficStats` (app.go lines 589-606): zero the first
matching rule's cumulative counters and persist; an unknown id returns
an error with nothing changed.  The live counter objects in `counters`
are not touched. -/
def resetTrafficStats (a : AppState) (id : String) : AppState × Option String :=
  match zeroTraffic a.rules id with
  | some rules2 => ({ a with rules := rules2 }, none)
  | none => (a, some ("rule not found: " ++ id))

/-- Mirrors the records `saveRules` writes (app.go lines 609-641): every
rule with `Running` forced to `false`; ids are written exactly as
stored. -/
def saveRulesRecords (rules : List SocksRule) : List SocksRule :=
  rules.map (fun r => { r with Running := false })

/-- Mirrors the id-assignment loop of `loadRules` (app.go lines
674-678): a record at position `i` (0-based) with an empty id becomes
`rule_<i+1>`. -/
def assignIds : List SocksRule → Nat → List SocksRule
  | [], _ => []
  | r :: rs, i =>
      (if r.ID = "" then { r with ID := "rule_" ++ toString (i + 1) } else r) ::
        assignIds rs (i + 1)

/-- Mirrors `loadRules` (app.go lines 644-685) applied to a parsed
record list (JSON unmarshalling is the identity on the schema): assign
ids to blank entries and install the list. -/
def loadRulesFrom (records : List SocksRule) : List SocksRule :=
  assignIds records 0

/-- Lock identities of the two lock domains (app.go: `App.mu` is the
Registry lock, `TrafficCounter.mu` is the per-counter lock). -/
inductive LockId where
  | registry
  | counter
deriving Repr, DecidableEq, BEq

/-- An acquire or release of one of the two locks. -/
inductive LockEvent where
  | acq (l : LockId)
  | rel (l : LockId)
deriving Repr, DecidableEq

/-- Lock events of `CountUpload` / `CountDownload` when the 3-second
inline-flush branch is taken: `t.mu.Lock()` (app.go line 62 resp. 74),
then inside `syncToRule` `t.app.mu.Lock()` (app.go line 89), then the
deferred unlocks in reverse order. -/
def countUploadFlushLocks : List LockEvent :=
  [LockEvent.acq LockId.counter, LockEvent.acq LockId.registry,
   LockEvent.rel LockId.registry, LockEvent.rel LockId.counter]

/-- Lock events of `StopServer`: `a.mu.Lock()` (app.go line 464), then
inside `stopServerLocked` the drain's `counter.mu.Lock()` /
`counter.mu.Unlock()` (app.go lines 490 and 501), then the deferred
registry unlock. -/
def stopServerLocks : List LockEvent :=
  [LockEvent.acq LockId.registry, LockEvent.acq LockId.counter,
   LockEvent.rel LockId.counter, LockEvent.rel LockId.registry]

/-- Whether a trace acquires lock `acquired` at a moment when `held` is
already held; `hs` is the set of locks currently held. -/
def acqWhileHolding (held acquired : LockId) :
    List LockEvent → List LockId → Bool
  | [], _ => false
  | LockEvent.acq l :: rest, hs =>
      (hs.contains held && l == acquired) || acqWhileHolding held acquired rest (l :: hs)
  | LockEvent.rel l :: rest, hs =>
      acqWhileHolding held acquired rest (hs.erase l)

/-! Helper lemmas about the first-match loops on a rule list decomposed
as `pre ++ r :: post` where no rule of `pre` carries the searched id. -/

theorem findRule_append (pre post : List SocksRule) (r : SocksRule) (id : String)
    (hpre : ∀ x ∈ pre, x.ID ≠ id) (hr : r.ID = id) :
    findRule (pre ++ r :: post) id = some r := by
  induction pre with
  | nil => simp [findRule, hr]
  | cons x xs ih =>
      have hx : x.ID ≠ id := hpre x (by simp)
      simp only [List.cons_append, findRule, if_neg hx]
      exact ih (fun y hy => hpre y (by simp [hy]))

theorem findRule_none (l : List SocksRule) (id : String)
    (h : ∀ x ∈ l, x.ID ≠ id) : findRule l id = none := by
  induction l with
  | nil => simp [findRule]
  | cons x xs ih =>
      have hx : x.ID ≠ id := h x (by simp)
      simp only [findRule, if_neg hx]
      exact ih (fun y hy => h y (by simp [hy]))

theorem findRuleIdx_append (pre post : List SocksRule) (r : SocksRule) (id : String)
    (hpre : ∀ x ∈ pre, x.ID ≠ id) (hr : r.ID = id) :
    findRuleIdx (pre ++ r :: post) id = some pre.length := by
  induction pre with
  | nil => simp [findRuleIdx, hr]
  | cons x xs ih =>
      have hx : x.ID ≠ id := hpre x (by simp)
      have ih2 := ih (fun y hy => hpre y (by simp [hy]))
      simp [findRuleIdx, if_neg hx, ih2]

theorem markRunning_append (pre post : List SocksRule) (r : SocksRule) (id : String)
    (b : Bool) (hpre : ∀ x ∈ pre, x.ID ≠ id) (hr : r.ID = id) :
    markRunning (pre ++ r :: post) id b = pre ++ { r with Running := b } :: post := by
  induction pre with
  | nil => simp [markRunning, hr]
  | cons x xs ih =>
      have hx : x.ID ≠ id := hpre x (by simp)
      have ih2 := ih (fun y hy => hpre y (by simp [hy]))
      simp [markRunning, if_neg hx, ih2]

theorem addTraffic_append (pre post : List SocksRule) (r : SocksRule) (id : String)
    (u d : Nat) (hpre : ∀ x ∈ pre, x.ID ≠ id) (hr : r.ID = id) :
    addTraffic (pre ++ r :: post) id u d =
      pre ++ { r with UploadBytes := r.UploadBytes + u,
                      DownloadBytes := r.DownloadBytes + d } :: post := by
  induction pre with
  | nil => simp [addTraffic, hr]
  | cons x xs ih =>
      have hx : x.ID ≠ id := hpre x (by simp)
      have ih2 := ih (fun y hy => hpre y (by simp [hy]))
      simp [addTraffic, if_neg hx, ih2]

theorem zeroTraffic_append (pre post : List SocksRule) (r : SocksRule) (id : String)
    (hpre : ∀ x ∈ pre, x.ID ≠ id) (hr : r.ID = id) :
    zeroTraffic (pre ++ r :: post) id =
      some (pre ++ { r with UploadBytes := 0, DownloadBytes := 0 } :: post) := by
  induction pre with
  | nil => simp [zeroTraffic, hr]
  | cons x xs ih =>
      have hx : x.ID ≠ id := hpre x (by simp)
      have ih2 := ih (fun y hy => hpre y (by simp [hy]))
      simp [zeroTraffic, if_neg hx, ih2]

theorem zeroTraffic_none (l : List SocksRule) (id : String)
    (h : ∀ x ∈ l, x.ID ≠ id) : zeroTraffic l id = none := by
  induction l with
  | nil => simp [zeroTraffic]
  | cons x xs ih =>
      have hx : x.ID ≠ id := h x (by simp)
      have ih2 := ih (fun y hy => h y (by simp [hy]))
      simp [zeroTraffic, if_neg hx, ih2]

theorem replaceFirst_append (pre post : List SocksRule) (r rule : SocksRule)
    (hpre : ∀ x ∈ pre, x.ID ≠ rule.ID) (hr : r.ID = rule.ID) :
    replaceFirst (pre ++ r :: post) rule = pre ++ rule :: post := by
  induction pre with
  | nil => simp [replaceFirst, hr]
  | cons x xs ih =>
      have hx : x.ID ≠ rule.ID := hpre x (by simp)
      have ih2 := ih (fun y hy => hpre y (by simp [hy]))
      simp [replaceFirst, if_neg hx, ih2]

theorem lookupA_insertA (m : List (String × TrafficCounter)) (k : String)
    (v : TrafficCounter) : lookupA (insertA m k v) k = some v := by
  induction m with
  | nil => simp [insertA, lookupA]
  | cons p rest ih =>
      by_cases hp : p.1 = k
      · simp [insertA, lookupA, hp]
      · simp [insertA, lookupA, hp, ih]

/-! Claim C2. -/

/-- Concrete stopped rule used in the C2 counterexample. -/
def c2Rule : SocksRule := ⟨"r1", "t", 1080, "", "", true, false, false, 0, 0⟩

/-- C2 counterexample: starting rule `r1` on a registry with empty
runtime maps when the TCP bind fails returns failure, yet an entry for
`r1` *does* remain in the counters map — refuting the claim that no
entry for the id remains in the counters, servers, or listeners maps. -/
theorem bindFailure_counterEntryRemains_cex :
    (startServerLocked ⟨[c2Rule], [], [], []⟩ "r1" false 5).2 = false ∧
    lookupA (startServerLocked ⟨[c2Rule], [], [], []⟩ "r1" false 5).1.counters "r1" =
      some (newTrafficCounter "r1" 5) := by decide

/-- C2 (amended): if `startServer`'s bind fails for an existing
non-running rule, the call returns failure, the rule list (hence the
rule's running flag) is unchanged, and the servers and listeners maps
are untouched; however the freshly created TrafficCounter entry stored
before the bind attempt remains registered in the counters map. -/
theorem bindFailure_noStateExceptCounter
    (pre post : List SocksRule) (r : SocksRule) (id : String)
    (cs : List (String × TrafficCounter)) (sv ls : List String) (now : Nat)
    (hpre : ∀ x ∈ pre, x.ID ≠ id) (hr : r.ID = id) (hnr : r.Running = false) :
    startServerLocked ⟨pre ++ r :: post, cs, sv, ls⟩ id false now =
      (⟨pre ++ r :: post, insertA cs id (newTrafficCounter id now), sv, ls⟩, false)
    ∧ lookupA (startServerLocked ⟨pre ++ r :: post, cs, sv, ls⟩ id false now).1.counters id =
        some (newTrafficCounter id now) := by
  have hfind := findRule_append pre post r id hpre hr
  have h1 : startServerLocked ⟨pre ++ r :: post, cs, sv, ls⟩ id false now =
      (⟨pre ++ r :: post, insertA cs id (newTrafficCounter id now), sv, ls⟩, false) := by
    unfold startServerLocked
    simp [hfind, hnr]
  refine ⟨h1, ?_⟩
  rw [h1]
  exact lookupA_insertA cs id (newTrafficCounter id now)

/-- Witness for `bindFailure_noStateExceptCounter` at a concrete input. -/
theorem bindFailure_noStateExceptCounter_w :
    (∀ x ∈ ([] : List SocksRule), x.ID ≠ "r1") ∧ c2Rule.ID = "r1" ∧
    c2Rule.Running = false ∧
    (startServerLocked ⟨[c2Rule], [], [], []⟩ "r1" false 5 =
        (⟨[c2Rule], insertA [] "r1" (newTrafficCounter "r1" 5), [], []⟩, false)
      ∧ lookupA (startServerLocked ⟨[c2Rule], [], [], []⟩ "r1" false 5).1.counters "r1" =
          some (newTrafficCounter "r1" 5)) :=
  ⟨by decide, by decide, by decide,
    bindFailure_noStateExceptCounter [] [] c2Rule "r1" [] [] [] 5
      (by decide) (by decide) (by decide)⟩

/-! Claim C8. -/

/-- C8: starting an already-running rule is an idempotent no-op:
the call returns success, allocates nothing (the state is unchanged,
so no counter, server, or listener entry is created), and the single
listener bound for the id stays the single listener. -/
theorem startServer_idempotentOnRunning
    (pre post : List SocksRule) (r : SocksRule) (id : String)
    (cs : List (String × TrafficCounter)) (sv ls : List String)
    (bindOk : Bool) (now : Nat)
    (hpre : ∀ x ∈ pre, x.ID ≠ id) (hr : r.ID = id) (hrun : r.Running = true)
    (hone : countKey ls id = 1) :
    startServerLocked ⟨pre ++ r :: post, cs, sv, ls⟩ id bindOk now =
      (⟨pre ++ r :: post, cs, sv, ls⟩, true)
    ∧ countKey (startServerLocked ⟨pre ++ r :: post, cs, sv, ls⟩ id bindOk now).1.listeners
        id = 1 := by
  have hfind := findRule_append pre post r id hpre hr
  have h1 : startServerLocked ⟨pre ++ r :: post, cs, sv, ls⟩ id bindOk now =
      (⟨pre ++ r :: post, cs, sv, ls⟩, true) := by
    unfold startServerLocked
    simp [hfind, hrun]
  refine ⟨h1, ?_⟩
  rw [h1]
  exact hone

/-- Concrete running rule used in witnesses. -/
def wRuleRunning : SocksRule := ⟨"w1", "w", 1080, "", "", true, true, false, 2, 3⟩

/-- Witness for `startServer_idempotentOnRunning` at a concrete input. -/
theorem startServer_idempotentOnRunning_w :
    (∀ x ∈ ([] : List SocksRule), x.ID ≠ "w1") ∧ wRuleRunning.ID = "w1" ∧
    wRuleRunning.Running = true ∧ countKey ["w1"] "w1" = 1 ∧
    (startServerLocked ⟨[wRuleRunning], [], [], ["w1"]⟩ "w1" true 0 =
        (⟨[wRuleRunning], [], [], ["w1"]⟩, true)
      ∧ countKey
          (startServerLocked ⟨[wRuleRunning], [], [], ["w1"]⟩ "w1" true 0).1.listeners
          "w1" = 1) :=
  ⟨by decide, by decide, by decide, by decide,
    startServer_idempotentOnRunning [] [] wRuleRunning "w1" [] [] ["w1"] true 0
      (by decide) (by decide) (by decide) (by decide)⟩

/-! Claim C9. -/

/-- C9: `resetTrafficStats` on a known id zeroes the stored cumulative
counters of that rule while touching neither the counters map nor any
live TrafficCounter value, so a later flush of a live counter `c` for
the rule adds `c`'s unflushed accumulators back into the (zeroed) rule
totals; on an unknown id it returns an error and changes nothing. -/
theorem resetTrafficStats_spec
    (pre post : List SocksRule) (r : SocksRule) (id : String)
    (cs : List (String × TrafficCounter)) (sv ls : List String)
    (c : TrafficCounter) (now : Nat)
    (hpre : ∀ x ∈ pre, x.ID ≠ id) (hr : r.ID = id) (hcid : c.ruleID = id) :
    resetTrafficStats ⟨pre ++ r :: post, cs, sv, ls⟩ id =
      (⟨pre ++ { r with UploadBytes := 0, DownloadBytes := 0 } :: post, cs, sv, ls⟩, none)
    ∧ (syncToRule c (pre ++ { r with UploadBytes := 0, DownloadBytes := 0 } :: post)
        now).2.1 =
        pre ++ { r with UploadBytes := c.uploadBytes,
                        DownloadBytes := c.downloadBytes } :: post
    ∧ ∀ id2, (∀ x ∈ pre ++ r :: post, x.ID ≠ id2) →
        resetTrafficStats ⟨pre ++ r :: post, cs, sv, ls⟩ id2 =
          (⟨pre ++ r :: post, cs, sv, ls⟩, some ("rule not found: " ++ id2)) := by
  have hzero := zeroTraffic_append pre post r id hpre hr
  refine ⟨?_, ?_, ?_⟩
  · unfold resetTrafficStats
    simp [hzero]
  · have hpre2 : ∀ x ∈ pre, x.ID ≠ c.ruleID := by rw [hcid]; exact hpre
    have hr2 : ({ r with UploadBytes := 0, DownloadBytes := 0 } : SocksRule).ID =
        c.ruleID := by rw [hcid]; exact hr
    have hidx := findRuleIdx_append pre post
      { r with UploadBytes := 0, DownloadBytes := 0 } c.ruleID hpre2 hr2
    have hadd := addTraffic_append pre post
      { r with UploadBytes := 0, DownloadBytes := 0 } c.ruleID
      c.uploadBytes c.downloadBytes hpre2 hr2
    unfold syncToRule
    simp [hidx, hadd]
  · intro id2 h2
    unfold resetTrafficStats
    simp [zeroTraffic_none _ _ h2]

/-- Concrete inputs for the C9 witness. -/
def wRuleReset : SocksRule := ⟨"w2", "w", 1081, "", "", true, true, false, 40, 50⟩

/-- Concrete live counter for the C9 witness. -/
def wCtrReset : TrafficCounter := ⟨6, 7, "w2", 0⟩

/-- Witness for `resetTrafficStats_spec` at a concrete input. -/
theorem resetTrafficStats_spec_w :
    (∀ x ∈ ([] : List SocksRule), x.ID ≠ "w2") ∧ wRuleReset.ID = "w2" ∧
    wCtrReset.ruleID = "w2" ∧
    (resetTrafficStats ⟨[wRuleReset], [("w2", wCtrReset)], ["w2"], ["w2"]⟩ "w2" =
        (⟨[{ wRuleReset with UploadBytes := 0, DownloadBytes := 0 }],
          [("w2", wCtrReset)], ["w2"], ["w2"]⟩, none)
      ∧ (syncToRule wCtrReset
          [{ wRuleReset with UploadBytes := 0, DownloadBytes := 0 }] 9).2.1 =
          [{ wRuleReset with UploadBytes := wCtrReset.uploadBytes,
                             DownloadBytes := wCtrReset.downloadBytes }]
      ∧ ∀ id2, (∀ x ∈ [wRuleReset], x.ID ≠ id2) →
          resetTrafficStats ⟨[wRuleReset], [("w2", wCtrReset)], ["w2"], ["w2"]⟩ id2 =
            (⟨[wRuleReset], [("w2", wCtrReset)], ["w2"], ["w2"]⟩,
             some ("rule not found: " ++ id2))) :=
  ⟨by decide, by decide, by decide,
    resetTrafficStats_spec [] [] wRuleReset "w2" [("w2", wCtrReset)] ["w2"] ["w2"]
      wCtrReset 9 (by decide) (by decide) (by decide)⟩

/-! Claim C10. -/

/-- C10: stopping a running instance whose counter holds unflushed
deltas drains those deltas into the rule's cumulative fields but leaves
the counter object's own accumulators untouched (the escaped counter
value — still referenced by the listener wrapper and any open wrapped
connections — is returned unchanged), so a later inline flush of that
same counter adds the already-drained amounts to the rule's totals a
second time. -/
theorem stopDrain_doubleCount
    (pre post : List SocksRule) (r : SocksRule) (id : String)
    (cs : List (String × TrafficCounter)) (sv ls : List String)
    (c : TrafficCounter) (now : Nat)
    (hpre : ∀ x ∈ pre, x.ID ≠ id) (hr : r.ID = id) (hrun : r.Running = true)
    (hc : lookupA cs id = some c) (hcid : c.ruleID = id) (hpos : 0 < c.uploadBytes) :
    stopServerLocked ⟨pre ++ r :: post, cs, sv, ls⟩ id =
      (⟨pre ++ { r with Running := false,
                        UploadBytes := r.UploadBytes + c.uploadBytes,
                        DownloadBytes := r.DownloadBytes + c.downloadBytes } :: post,
        eraseA cs id, eraseKey sv id, eraseKey ls id⟩, some c, true)
    ∧ (syncToRule c
        (pre ++ { r with Running := false,
                         UploadBytes := r.UploadBytes + c.uploadBytes,
                         DownloadBytes := r.DownloadBytes + c.downloadBytes } :: post)
        now).2.1 =
        pre ++ { r with Running := false,
                        UploadBytes := r.UploadBytes + c.uploadBytes + c.uploadBytes,
                        DownloadBytes := r.DownloadBytes + c.downloadBytes +
                          c.downloadBytes } :: post := by
  have hfind := findRule_append pre post r id hpre hr
  have hmark := markRunning_append pre post r id false hpre hr
  have hr1 : ({ r with Running := false } : SocksRule).ID = id := hr
  have hadd := addTraffic_append pre post { r with Running := false } id
    c.uploadBytes c.downloadBytes hpre hr1
  constructor
  · unfold stopServerLocked
    simp only [hfind, hrun, if_true]
    have hcond : c.uploadBytes > 0 ∨ c.downloadBytes > 0 := Or.inl hpos
    simp [hc, drainLocked, hcond, hmark, hadd]
  · have hpre2 : ∀ x ∈ pre, x.ID ≠ c.ruleID := by rw [hcid]; exact hpre
    have hr2 : ({ r with Running := false,
                         UploadBytes := r.UploadBytes + c.uploadBytes,
                         DownloadBytes := r.DownloadBytes + c.downloadBytes } :
        SocksRule).ID = c.ruleID := by rw [hcid]; exact hr
    have hidx := findRuleIdx_append pre post
      { r with Running := false,
               UploadBytes := r.UploadBytes + c.uploadBytes,
               DownloadBytes := r.DownloadBytes + c.downloadBytes } c.ruleID hpre2 hr2
    have hadd2 := addTraffic_append pre post
      { r with Running := false,
               UploadBytes := r.UploadBytes + c.uploadBytes,
               DownloadBytes := r.DownloadBytes + c.downloadBytes } c.ruleID
      c.uploadBytes c.downloadBytes hpre2 hr2
    unfold syncToRule
    simp [hidx, hadd2]

/-- Concrete inputs for the C10 witness. -/
def wRuleStop : SocksRule := ⟨"w3", "w", 1082, "", "", true, true, false, 10, 20⟩

/-- Concrete unflushed counter for the C10 witness. -/
def wCtrStop : TrafficCounter := ⟨100, 200, "w3", 0⟩

/-- Witness for `stopDrain_doubleCount` at a concrete input. -/
theorem stopDrain_doubleCount_w :
    (∀ x ∈ ([] : List SocksRule), x.ID ≠ "w3") ∧ wRuleStop.ID = "w3" ∧
    wRuleStop.Running = true ∧ lookupA [("w3", wCtrStop)] "w3" = some wCtrStop ∧
    wCtrStop.ruleID = "w3" ∧ 0 < wCtrStop.uploadBytes ∧
    (stopServerLocked ⟨[wRuleStop], [("w3", wCtrStop)], ["w3"], ["w3"]⟩ "w3" =
        (⟨[{ wRuleStop with
              Running := false,
              UploadBytes := wRuleStop.UploadBytes + wCtrStop.uploadBytes,
              DownloadBytes := wRuleStop.DownloadBytes + wCtrStop.downloadBytes }],
          eraseA [("w3", wCtrStop)] "w3", eraseKey ["w3"] "w3", eraseKey ["w3"] "w3"⟩,
         some wCtrStop, true)
      ∧ (syncToRule wCtrStop
          [{ wRuleStop with
              Running := false,
              UploadBytes := wRuleStop.UploadBytes + wCtrStop.uploadBytes,
              DownloadBytes := wRuleStop.DownloadBytes + wCtrStop.downloadBytes }]
          7).2.1 =
          [{ wRuleStop with
              Running := false,
              UploadBytes := wRuleStop.UploadBytes + wCtrStop.uploadBytes +
                wCtrStop.uploadBytes,
              DownloadBytes := wRuleStop.DownloadBytes + wCtrStop.downloadBytes +
                wCtrStop.downloadBytes }]) :=
  ⟨by decide, by decide, by decide, by decide, by decide, by decide,
    stopDrain_doubleCount [] [] wRuleStop "w3" [("w3", wCtrStop)] ["w3"] ["w3"]
      wCtrStop 7 (by decide) (by decide) (by decide) (by decide) (by decide)
      (by decide)⟩

/-! Further shared helper lemmas. -/

theorem countKey_eraseKey (m : List String) (k : String) :
    countKey (eraseKey m k) k = countKey m k - 1 := by
  induction m with
  | nil => simp [eraseKey, countKey]
  | cons x rest ih =>
      by_cases hx : x = k
      · simp [eraseKey, countKey, hx]
      · simp [eraseKey, countKey, hx] at ih ⊢
        exact ih

theorem filter_id_nil (l : List SocksRule) (id : String)
    (h : ∀ x ∈ l, x.ID ≠ id) : l.filter (fun x => x.ID = id) = [] := by
  induction l with
  | nil => simp
  | cons x xs ih =>
      have hx : x.ID ≠ id := h x (by simp)
      have ih2 := ih (fun y hy => h y (by simp [hy]))
      simp [hx, ih2]

/-- The state a successful `stopServerLocked` leaves behind: the found
rule has `Running` cleared (and, when a counter with unflushed bytes was
registered, the drained totals added), all three runtime maps lose the
id's entry, the escaped counter value is whatever the counters map held,
unchanged. -/
theorem stopServerLocked_state (pre post : List SocksRule) (r : SocksRule)
    (id : String) (cs : List (String × TrafficCounter)) (sv ls : List String)
    (hpre : ∀ x ∈ pre, x.ID ≠ id) (hr : r.ID = id) (hrun : r.Running = true) :
    ∃ r2 : SocksRule, r2.ID = id ∧
      stopServerLocked ⟨pre ++ r :: post, cs, sv, ls⟩ id =
        (⟨pre ++ r2 :: post, eraseA cs id, eraseKey sv id, eraseKey ls id⟩,
         lookupA cs id, true) := by
  have hfind := findRule_append pre post r id hpre hr
  have hmark := markRunning_append pre post r id false hpre hr
  rcases hcs : lookupA cs id with _ | c
  · exact ⟨{ r with Running := false }, hr, by
      unfold stopServerLocked
      simp [hfind, hrun, hcs, hmark]⟩
  · by_cases hdc : c.uploadBytes > 0 ∨ c.downloadBytes > 0
    · refine ⟨{ r with
                 Running := false,
                 UploadBytes := r.UploadBytes + c.uploadBytes,
                 DownloadBytes := r.DownloadBytes + c.downloadBytes }, hr, ?_⟩
      have hadd := addTraffic_append pre post { r with Running := false } id
        c.uploadBytes c.downloadBytes hpre hr
      unfold stopServerLocked
      simp [hfind, hrun, hcs, hmark, drainLocked, hdc, hadd]
    · refine ⟨{ r with Running := false }, hr, ?_⟩
      unfold stopServerLocked
      simp [hfind, hrun, hcs, hmark, drainLocked, hdc]

/-! Claim C3. -/

/-- Concrete running rule for the C3 counterexample. -/
def c3Rule : SocksRule := ⟨"r1", "t", 1080, "", "", true, true, false, 7, 9⟩

/-- Concrete live counter for the C3 counterexample. -/
def c3Ctr : TrafficCounter := ⟨3, 4, "r1", 0⟩

/-- Concrete update request (new port, running, bogus byte counters) for
the C3 counterexample. -/
def c3Req : SocksRule := ⟨"r1", "t2", 2000, "", "", true, true, false, 999, 888⟩

/-- C3 counterexample: updating running rule `r1` to a rule marked
running succeeds and preserves the existing byte counters (7, 9 — the
caller's 999, 888 are ignored), but afterwards the listeners map is
empty: the instance is *not* actually restarted, refuting the claim
that a live listener for the id exists after the update. -/
theorem updateRestart_noListener_cex :
    (updateRule ⟨[c3Rule], [("r1", c3Ctr)], ["r1"], ["r1"]⟩ c3Req true 5).2 = true ∧
    (updateRule ⟨[c3Rule], [("r1", c3Ctr)], ["r1"], ["r1"]⟩ c3Req true 5).1.listeners
      = [] ∧
    findRule
      (updateRule ⟨[c3Rule], [("r1", c3Ctr)], ["r1"], ["r1"]⟩ c3Req true 5).1.rules
      "r1" = some ⟨"r1", "t2", 2000, "", "", true, true, false, 7, 9⟩ := by decide

/-- C3 (amended): updating an existing running rule preserves the
existing entry's `uploadBytes`/`downloadBytes` (the caller-supplied
values are ignored) and stops the running instance before applying the
field changes; but when the updated rule is marked running, the
subsequent restart is a no-op — `startServerLocked` sees the already-set
running flag and returns immediately — so no listener (or server, or
counter) entry for the id exists afterwards while the stored rule still
reports `running = true`. -/
theorem updateRule_preservesBytes_restartNoop
    (pre post : List SocksRule) (r rule : SocksRule)
    (cs : List (String × TrafficCounter)) (sv ls : List String)
    (bindOk : Bool) (now : Nat)
    (hpre : ∀ x ∈ pre, x.ID ≠ rule.ID) (hr : r.ID = rule.ID)
    (hrun : r.Running = true) (hreq : rule.Running = true)
    (hls : countKey ls rule.ID ≤ 1) :
    updateRule ⟨pre ++ r :: post, cs, sv, ls⟩ rule bindOk now =
      (⟨pre ++ { rule with
                  Running := true,
                  UploadBytes := r.UploadBytes,
                  DownloadBytes := r.DownloadBytes } :: post,
        eraseA cs rule.ID, eraseKey sv rule.ID, eraseKey ls rule.ID⟩, true)
    ∧ countKey (eraseKey ls rule.ID) rule.ID = 0 := by
  have hfind := findRule_append pre post r rule.ID hpre hr
  obtain ⟨r2, hr2, hstop⟩ :=
    stopServerLocked_state pre post r rule.ID cs sv ls hpre hr hrun
  have hrepl := replaceFirst_append pre post r2
    { rule with Running := true, UploadBytes := r.UploadBytes,
                DownloadBytes := r.DownloadBytes }
    hpre hr2
  have hfind2 := findRule_append pre post
    { rule with Running := true, UploadBytes := r.UploadBytes,
                DownloadBytes := r.DownloadBytes }
    rule.ID hpre rfl
  have hstart : startServerLocked
      ⟨pre ++ { rule with Running := true, UploadBytes := r.UploadBytes,
                          DownloadBytes := r.DownloadBytes } :: post,
        eraseA cs rule.ID, eraseKey sv rule.ID, eraseKey ls rule.ID⟩
      rule.ID bindOk now =
      (⟨pre ++ { rule with Running := true, UploadBytes := r.UploadBytes,
                           DownloadBytes := r.DownloadBytes } :: post,
        eraseA cs rule.ID, eraseKey sv rule.ID, eraseKey ls rule.ID⟩, true) := by
    unfold startServerLocked
    simp [hfind2]
  refine ⟨?_, ?_⟩
  · unfold updateRule
    simp [hfind, hrun, hreq, hstop, hrepl, hstart]
  · rw [countKey_eraseKey]
    exact Nat.sub_eq_zero_of_le hls

/-- Witness for `updateRule_preservesBytes_restartNoop` at a concrete
input. -/
theorem updateRule_preservesBytes_restartNoop_w :
    (∀ x ∈ ([] : List SocksRule), x.ID ≠ c3Req.ID) ∧ c3Rule.ID = c3Req.ID ∧
    c3Rule.Running = true ∧ c3Req.Running = true ∧
    countKey ["r1"] c3Req.ID ≤ 1 ∧
    (updateRule ⟨[c3Rule], [("r1", c3Ctr)], ["r1"], ["r1"]⟩ c3Req true 5 =
        (⟨[{ c3Req with
              Running := true,
              UploadBytes := c3Rule.UploadBytes,
              DownloadBytes := c3Rule.DownloadBytes }],
          eraseA [("r1", c3Ctr)] c3Req.ID, eraseKey ["r1"] c3Req.ID,
          eraseKey ["r1"] c3Req.ID⟩, true)
      ∧ countKey (eraseKey ["r1"] c3Req.ID) c3Req.ID = 0) :=
  ⟨by decide, by decide, by decide, by decide, by decide,
    updateRule_preservesBytes_restartNoop [] [] c3Rule c3Req [("r1", c3Ctr)]
      ["r1"] ["r1"] true 5 (by decide) (by decide) (by decide) (by decide)
      (by decide)⟩

/-! Claim C6. -/

/-- Concrete rule with an empty id for the C6 counterexample. -/
def c6Bad : SocksRule := ⟨"", "x", 1080, "", "", true, false, false, 3, 4⟩

/-- C6 counterexample: for the one-element rule list whose entry has an
empty id, save-then-load does *not* reproduce the same set of rule ids —
the load path rewrites the empty id to `rule_1`. -/
theorem roundtripEmptyId_cex :
    (loadRulesFrom (saveRulesRecords [c6Bad])).map (fun r => r.ID) = ["rule_1"] ∧
    [c6Bad].map (fun r => r.ID) = [""] ∧ ("rule_1" : String) ≠ "" := by decide

theorem assignIds_of_nonempty (l : List SocksRule) (i : Nat)
    (h : ∀ r ∈ l, r.ID ≠ "") : assignIds l i = l := by
  induction l generalizing i with
  | nil => simp [assignIds]
  | cons x xs ih =>
      have hx : x.ID ≠ "" := h x (by simp)
      simp [assignIds, hx, ih (i + 1) (fun y hy => h y (by simp [hy]))]

/-- C6 (amended): for every rule list in which every id is nonempty (as
holds for every Registry state built through `addRule`/`loadRules`,
which both assign ids to blank entries), saving and re-loading
reproduces exactly the same rule ids, configuration fields and
cumulative byte counts, with `running` forced to `false` on every
loaded entry; an entry with an empty id is instead re-identified as
`rule_<position+1>` on load. -/
theorem saveLoadRoundtrip (rules : List SocksRule)
    (h : ∀ r ∈ rules, r.ID ≠ "") :
    loadRulesFrom (saveRulesRecords rules) =
      rules.map (fun r => { r with Running := false })
    ∧ (loadRulesFrom (saveRulesRecords rules)).map (fun r => r.ID) =
        rules.map (fun r => r.ID)
    ∧ ∀ r2 ∈ loadRulesFrom (saveRulesRecords rules), r2.Running = false := by
  have h2 : ∀ r2 ∈ saveRulesRecords rules, r2.ID ≠ "" := by
    intro r2 hr2
    simp only [saveRulesRecords, List.mem_map] at hr2
    obtain ⟨r, hr, rfl⟩ := hr2
    exact h r hr
  have hmain : loadRulesFrom (saveRulesRecords rules) =
      rules.map (fun r => { r with Running := false }) := by
    unfold loadRulesFrom
    rw [assignIds_of_nonempty _ 0 h2]
    rfl
  refine ⟨hmain, ?_, ?_⟩
  · rw [hmain, List.map_map]
    rfl
  · rw [hmain]
    intro r2 hr2
    simp only [List.mem_map] at hr2
    obtain ⟨r, hr, rfl⟩ := hr2
    rfl

/-- Concrete rule for the C6 witness. -/
def wRuleSave : SocksRule := ⟨"s1", "s", 1090, "u", "p", false, true, true, 11, 12⟩

/-- Witness for `saveLoadRoundtrip` at a concrete input. -/
theorem saveLoadRoundtrip_w :
    (∀ r ∈ [wRuleSave], r.ID ≠ "") ∧
    (loadRulesFrom (saveRulesRecords [wRuleSave]) =
        [wRuleSave].map (fun r => { r with Running := false })
      ∧ (loadRulesFrom (saveRulesRecords [wRuleSave])).map (fun r => r.ID) =
          [wRuleSave].map (fun r => r.ID)
      ∧ ∀ r2 ∈ loadRulesFrom (saveRulesRecords [wRuleSave]), r2.Running = false) :=
  ⟨by decide, saveLoadRoundtrip [wRuleSave] (by decide)⟩

/-! Claim C7. -/

/-- Concrete pre-existing rule whose id collides with the next
auto-assigned id, for the C7 counterexample. -/
def c7Existing : SocksRule := ⟨"rule_2", "t", 1080, "", "", true, false, false, 0, 0⟩

/-- Concrete added rule carrying nonzero byte counters, for the C7
counterexample. -/
def c7New : SocksRule := ⟨"", "u", 1081, "", "", true, false, false, 5, 0⟩

/-- C7 counterexample: adding a blank-id rule with `uploadBytes = 5` to
a registry already holding a rule named `rule_2` returns the id
`rule_2`, after which *two* entries carry that id (uniqueness violated)
and the added entry keeps `uploadBytes = 5` (not reset to 0). -/
theorem addRuleDuplicateNonzero_cex :
    (addRule ⟨[c7Existing], [], [], []⟩ c7New).2 = "rule_2" ∧
    ((addRule ⟨[c7Existing], [], [], []⟩ c7New).1.rules.filter
      (fun x => x.ID = "rule_2")).length = 2 ∧
    findRule ((addRule ⟨[c7Existing], [], [], []⟩ c7New).1.rules.reverse) "rule_2" =
      some ⟨"rule_2", "u", 1081, "", "", true, false, false, 5, 0⟩ := by decide

/-- C7 (amended): `addRule` appends the rule with the caller-supplied
cumulative byte counters unchanged (they are not reset to zero) and
returns the assigned id (`rule_<n+1>` when the caller's id is blank,
otherwise the caller's id).  When the assigned id does not already
occur in the Registry, the resulting list contains exactly one entry
with the returned id and its byte counters are the caller's values;
`addRule` itself does not enforce id uniqueness. -/
theorem addRule_appendsCallerBytes (a : AppState) (rule : SocksRule)
    (hfresh : ∀ x ∈ a.rules, x.ID ≠ assignedId a rule) :
    (addRule a rule).2 = assignedId a rule
    ∧ (addRule a rule).1.rules =
        a.rules ++ [{ rule with ID := assignedId a rule }]
    ∧ ((addRule a rule).1.rules.filter
        (fun x => x.ID = assignedId a rule)).length = 1
    ∧ ∀ x ∈ (addRule a rule).1.rules, x.ID = assignedId a rule →
        x.UploadBytes = rule.UploadBytes ∧ x.DownloadBytes = rule.DownloadBytes := by
  have key : addRule a rule =
      ({ a with rules := a.rules ++ [{ rule with ID := assignedId a rule }] },
       assignedId a rule) := by
    unfold addRule assignedId
    by_cases hid : rule.ID = "" <;> simp [hid]
  have hfilter : (a.rules ++ [{ rule with ID := assignedId a rule }]).filter
      (fun x => x.ID = assignedId a rule) = [{ rule with ID := assignedId a rule }] := by
    rw [List.filter_append, filter_id_nil a.rules _ hfresh]
    simp
  refine ⟨by rw [key], by rw [key], ?_, ?_⟩
  · rw [key]
    simp only [hfilter]
    rfl
  · intro x hx hxid
    rw [key] at hx
    simp only [List.mem_append, List.mem_singleton] at hx
    rcases hx with hx | rfl
    · exact absurd hxid (hfresh x hx)
    · exact ⟨rfl, rfl⟩

/-- Concrete added rule for the C7 witness. -/
def wRuleAdd : SocksRule := ⟨"", "n", 1082, "", "", true, false, false, 5, 6⟩

/-- Witness for `addRule_appendsCallerBytes` at a concrete input. -/
theorem addRule_appendsCallerBytes_w :
    (∀ x ∈ (⟨[], [], [], []⟩ : AppState).rules,
      x.ID ≠ assignedId ⟨[], [], [], []⟩ wRuleAdd) ∧
    ((addRule ⟨[], [], [], []⟩ wRuleAdd).2 = assignedId ⟨[], [], [], []⟩ wRuleAdd
      ∧ (addRule ⟨[], [], [], []⟩ wRuleAdd).1.rules =
          [] ++ [{ wRuleAdd with ID := assignedId ⟨[], [], [], []⟩ wRuleAdd }]
      ∧ ((addRule ⟨[], [], [], []⟩ wRuleAdd).1.rules.filter
          (fun x => x.ID = assignedId ⟨[], [], [], []⟩ wRuleAdd)).length = 1
      ∧ ∀ x ∈ (addRule ⟨[], [], [], []⟩ wRuleAdd).1.rules,
          x.ID = assignedId ⟨[], [], [], []⟩ wRuleAdd →
          x.UploadBytes = wRuleAdd.UploadBytes ∧
          x.DownloadBytes = wRuleAdd.DownloadBytes) :=
  ⟨by decide, addRule_appendsCallerBytes ⟨[], [], [], []⟩ wRuleAdd (by decide)⟩

/-! Claim C1. -/

/-- Concrete running rule for the C1 trace. -/
def c1Rule : SocksRule := ⟨"r1", "test", 1080, "", "", true, true, false, 0, 0⟩

/-- The C1 connection trace: a 100-byte write shortly after start (no
inline flush yet), then — after the server has been stopped — one more
1-byte write on the still-open wrapped connection, more than 3 seconds
after the counter's last sync, which triggers an inline flush. -/
def c1Events : List ConnEvent := [ConnEvent.write 100 1, ConnEvent.write 1 10]

/-- Counter and rule list after the pre-stop traffic. -/
def c1Pre : TrafficCounter × List SocksRule :=
  runConn (newTrafficCounter "r1" 0) [c1Rule] [ConnEvent.write 100 1]

/-- Stopping the server with 100 unflushed bytes in the counter; the
wrapped connection still references the escaped counter. -/
def c1Stop : AppState × Option TrafficCounter × Bool :=
  stopServerLocked ⟨c1Pre.2, [("r1", c1Pre.1)], ["r1"], ["r1"]⟩ "r1"

/-- The counter object as the open connection still sees it after the
stop (accumulators untouched by the drain). -/
def c1Esc : TrafficCounter := (c1Stop.2.1).getD (newTrafficCounter "r1" 0)

/-- State after the post-stop write on the still-open connection. -/
def c1Post : TrafficCounter × List SocksRule :=
  runConn c1Esc c1Stop.1.rules [ConnEvent.write 1 10]

/-- C1 (refuted by the code): over the trace `c1Events` the Instrumented
Connection counts 101 uploaded bytes, but after `stopServer` the rule's
cumulative `uploadBytes` ends at 201 — `stopServerLocked` drains the
counter into the rule without zeroing the counter's accumulators, so the
post-stop inline flush adds the same 100 bytes a second time.  The
totals therefore do not equal the bytes counted, refuting exact
flush-on-stop accounting. -/
theorem trafficExactness_codeBug :
    countedUpload c1Events = 101
    ∧ (findRule c1Post.2 "r1").map (fun r => r.UploadBytes) = some 201
    ∧ (findRule c1Post.2 "r1").map (fun r => r.UploadBytes) ≠
        some (countedUpload c1Events) := by decide

/-! Claim C4. -/

/-- Rule at list index 0 for the C4 evaluation. -/
def c4RuleA : SocksRule := ⟨"a", "a", 1080, "", "", true, true, false, 0, 0⟩

/-- Rule at list index 1 for the C4 evaluation. -/
def c4RuleB : SocksRule := ⟨"b", "b", 1081, "", "", true, true, false, 0, 0⟩

/-- Repeatedly count one uploaded byte more than 3 seconds after the
previous sync, so every `CountUpload` call performs an inline flush;
record for each flush whether it triggered the asynchronous save
(`go saveRules`). -/
def repeatCountUpload : Nat → TrafficCounter → List SocksRule → Nat → List Bool
  | 0, _, _, _ => []
  | Nat.succ k, c, rules, now =>
      let r := countUpload c 1 rules now
      r.2.2 :: repeatCountUpload k r.1 r.2.1 (now + 4)

/-- C4 (refuted by the code): with the two-rule registry
`[c4RuleA, c4RuleB]`, ten consecutive flushes of the counter of rule
`b` (list index 1) trigger the asynchronous persistence write on *none*
of them — in particular not on the 10th — while ten consecutive flushes
of rule `a`'s counter (list index 0) trigger it on *every* flush: the
code's `i % 10 == 0` tests the matched rule's list index, not a
per-instance flush count. -/
theorem tenthFlushPersistence_codeBug :
    repeatCountUpload 10 (newTrafficCounter "b" 0) [c4RuleA, c4RuleB] 4 =
      List.replicate 10 false
    ∧ repeatCountUpload 10 (newTrafficCounter "a" 0) [c4RuleA, c4RuleB] 4 =
      List.replicate 10 true := by decide

/-! Claim C5. -/

/-- C5 (refuted by the code): the inline-flush path of
`CountUpload`/`CountDownload` acquires the Registry lock (inside
`syncToRule`) while already holding the counter lock — exactly the
reverse ordering the claim says never occurs — while `StopServer`
acquires the counter lock while holding the Registry lock; both orders
coexist, so a Registry-lock/counter-lock deadlock between concurrent
accounting and stop is possible. -/
theorem lockOrderInversion_codeBug :
    acqWhileHolding LockId.counter LockId.registry countUploadFlushLocks [] = true
    ∧ acqWhileHolding LockId.registry LockId.counter stopServerLocks [] = true := by
  decide

end Gosker
